import Mathlib

/-!
Verification of the rice-cli setup tool (src/src/main.rs).

Strings from the Rust code are modelled as `List Char`. Interactive
prompts are modelled by passing the collected answers in as a structure;
the file system is modelled as the contents of the two files the program
touches (`rice.config.js` and `.env`); the single outbound HTTP request
is modelled by an oracle from the requested URL to the transport
outcome. Prompt and file-system primitives are assumed to succeed, so
the `?`-propagated I/O error paths of the Rust code are outside the
model; every modelled path of `run_setup` returns `Ok(())`, exactly as
in the source.
-/

namespace RiceCli

/-- Rust `str::split(sep)` collected into a list of segments, for a
one-character separator. `split` always yields at least one segment:
the (possibly empty) prefix before the first separator comes first. -/
def splitCh (sep : Char) : List Char → List (List Char)
  | [] => [[]]
  | c :: cs =>
    if c = sep then [] :: splitCh sep cs
    else
      match splitCh sep cs with
      | [] => [[c]]
      | h :: t => (c :: h) :: t

theorem splitCh_ne_nil (sep : Char) (s : List Char) : splitCh sep s ≠ [] := by
  cases s with
  | nil => simp [splitCh]
  | cons c cs =>
    by_cases h : c = sep
    · simp [splitCh, h]
    · cases hs : splitCh sep cs with
      | nil => simp [splitCh, h, hs]
      | cons x xs => simp [splitCh, h, hs]

theorem splitCh_head (sep : Char) (s : List Char) :
    (splitCh sep s).head? = some (s.takeWhile (fun c => !(c = sep))) := by
  induction s with
  | nil => simp [splitCh]
  | cons c cs ih =>
    by_cases h : c = sep
    · simp [splitCh, h, List.takeWhile]
    · cases hs : splitCh sep cs with
      | nil => exact absurd hs (splitCh_ne_nil sep cs)
      | cons x xs =>
        rw [hs] at ih
        simp only [List.head?, Option.some.injEq] at ih
        simp [splitCh, h, hs, List.takeWhile, ih]

theorem splitCh_length (sep : Char) (s : List Char) :
    (splitCh sep s).length = s.count sep + 1 := by
  induction s with
  | nil => simp [splitCh]
  | cons c cs ih =>
    by_cases h : c = sep
    · simp [splitCh, h, List.count_cons, ih]
    · cases hs : splitCh sep cs with
      | nil => exact absurd hs (splitCh_ne_nil sep cs)
      | cons x xs =>
        rw [hs] at ih
        simp only [List.length] at ih
        simp [splitCh, h, hs, List.count_cons, ih]

/-- Host derivation in `run_setup` (main.rs:184-188): when
`storage_url` contains a colon, the first segment of
`storage_url.split` on colon, with `unwrap_or` falling back to
`localhost`; otherwise the whole `storage_url`. -/
def setupDeriveHost (storage_url : List Char) : List Char :=
  if storage_url.contains ':' then
    ((splitCh ':' storage_url).head?.getD ("localhost".toList))
  else storage_url

/-- Health URL composition in `run_setup` (main.rs:190): the format
call producing `http://HOST:PORT/health`. -/
def setupHealthUrl (storage_url storage_http_port : List Char) : List Char :=
  ("http://").toList ++ setupDeriveHost storage_url
    ++ [':'] ++ storage_http_port ++ ("/health").toList

/-- Host derivation in `run_check` (main.rs:267-271), textually identical
to the one in `run_setup`. -/
def checkDeriveHost (storage_url : List Char) : List Char :=
  if storage_url.contains ':' then
    ((splitCh ':' storage_url).head?.getD ("localhost".toList))
  else storage_url

/-- Health URL composition in `run_check` (main.rs:273). -/
def checkHealthUrl (storage_url http_port : List Char) : List Char :=
  ("http://").toList ++ checkDeriveHost storage_url
    ++ [':'] ++ http_port ++ ("/health").toList

/-- Modelled from the spec wording: the substring of `url` before its
first `:` when `url` contains a `:`, and the whole string otherwise. -/
def specHost (url : List Char) : List Char :=
  if url.contains ':' then url.takeWhile (fun c => !(c = ':')) else url

/-- Modelled from the spec wording: `http://{host}:{http_port}/health`. -/
def specHealthUrl (url http_port : List Char) : List Char :=
  ("http://").toList ++ specHost url ++ [':'] ++ http_port ++ ("/health").toList

theorem setupDeriveHost_eq_specHost (url : List Char) :
    setupDeriveHost url = specHost url := by
  unfold setupDeriveHost specHost
  rw [splitCh_head]
  rfl

theorem checkDeriveHost_eq_specHost (url : List Char) :
    checkDeriveHost url = specHost url := by
  unfold checkDeriveHost specHost
  rw [splitCh_head]
  rfl

/-- C1: for every url string and http_port string, the health-check URL
derived by the setup flow and by the check mode both equal
`http://{host}:{http_port}/health`, where host is the substring of url
before its first `:` when url contains a `:`, and the whole url
otherwise. -/
theorem setup_and_check_health_url_spec (url http_port : List Char) :
    setupHealthUrl url http_port = specHealthUrl url http_port ∧
    checkHealthUrl url http_port = specHealthUrl url http_port := by
  constructor
  · unfold setupHealthUrl specHealthUrl
    rw [setupDeriveHost_eq_specHost]
  · unfold checkHealthUrl specHealthUrl
    rw [checkDeriveHost_eq_specHost]

/-- C9: the `"localhost"` fallback of `unwrap_or` is unreachable, since
splitting always yields a first segment; the host is the possibly empty
prefix before the first `:`, so the url `":8080"` derives the empty
host and the URL `http://:{http_port}/health`, never `localhost`. -/
theorem localhost_fallback_unreachable (url http_port : List Char) :
    splitCh ':' url ≠ [] ∧
    (splitCh ':' url).head? = some (url.takeWhile (fun c => !(c = ':'))) ∧
    setupDeriveHost (":8080").toList = [] ∧
    setupHealthUrl (":8080").toList http_port
      = ("http://:").toList ++ http_port ++ ("/health").toList := by
  refine ⟨splitCh_ne_nil ':' url, splitCh_head ':' url, ?_, ?_⟩
  · decide
  · unfold setupHealthUrl
    have h : setupDeriveHost (":8080").toList = [] := by decide
    rw [h]
    rfl

/-- Transport outcome of the single `client.get(url).send().await`
request, as seen by the match in main.rs:193/286: either a response
carrying a status code or a transport-level error. -/
inductive HttpResponse where
  | ok (status : Nat)
  | err (msg : List Char)
deriving DecidableEq

/-- `reqwest::StatusCode::is_success`: the 2xx family. -/
def isSuccessStatus (s : Nat) : Bool := 200 ≤ s && s < 300

/-- Classification of the probe outcome (spec data model
`HealthCheckResult`); the branches embed main.rs:194-213 (and the
textually identical match of `run_check`, main.rs:287-298). -/
inductive HealthCheckResult where
  | healthy (status : Nat)
  | unhealthy (status : Nat)
  | unreachable (msg : List Char)
deriving DecidableEq

def classify (r : HttpResponse) : HealthCheckResult :=
  match r with
  | .ok s => if isSuccessStatus s then .healthy s else .unhealthy s
  | .err e => .unreachable e

/-- The answers the interactive prompts of `run_setup` return. The
prompt library already substitutes the displayed default when the user
submits empty input, so these are the post-default values; `overwrite`
is the answer to the `rice.config.js already exists. Overwrite?`
confirmation, consulted only when that file exists. -/
structure SetupAnswers where
  enableStorage : Bool
  enableState : Bool
  storageUrl : List Char
  storageUser : List Char
  storageToken : List Char
  storageHttpPort : List Char
  stateUrl : List Char
  stateToken : List Char
  stateRunId : List Char
  overwrite : Bool

/-- The two files the program touches: `none` models a file that does
not exist, `some bytes` its current contents. -/
structure FS where
  config : Option (List Char)
  env : Option (List Char)
deriving DecidableEq

structure FileWrite where
  path : List Char
  data : List Char
  isAppend : Bool
deriving DecidableEq

/-- Default of the overwrite confirmation prompt, main.rs:131:
`.default(false)`. -/
def overwriteDefault : Bool := false

/-- `rice.config.js` content, main.rs:122-125. Rust `format!` prints
booleans as `true`/`false`. -/
def boolStr (b : Bool) : List Char :=
  if b then ("true").toList else ("false").toList

def configContent (enable_storage enable_state : Bool) : List Char :=
  ("/** @type \x7bimport(\x27rice-node-sdk\x27).RiceConfig\x7d */\nmodule.exports = \x7b\n  storage: \x7b\n    enabled: ").toList
    ++ boolStr enable_storage
    ++ (",\n  \x7d,\n  state: \x7b\n    enabled: ").toList
    ++ boolStr enable_state
    ++ (",\n  \x7d,\n\x7d;").toList

/-- `.env` block, main.rs:146-155: leading blank line, comment header,
then the 7 `KEY=value` lines, each value interpolated verbatim. -/
def envContent (storage_url storage_user storage_token storage_http_port
    state_url state_token state_run_id : List Char) : List Char :=
  ("\n# Rice Configuration\nSTORAGE_INSTANCE_URL=").toList ++ storage_url
    ++ ("\nSTORAGE_USER=").toList ++ storage_user
    ++ ("\nSTORAGE_AUTH_TOKEN=").toList ++ storage_token
    ++ ("\nSTORAGE_HTTP_PORT=").toList ++ storage_http_port
    ++ ("\nSTATE_INSTANCE_URL=").toList ++ state_url
    ++ ("\nSTATE_AUTH_TOKEN=").toList ++ state_token
    ++ ("\nSTATE_RUN_ID=").toList ++ state_run_id
    ++ ("\n").toList

/-- Observable outcome of one `run_setup` session. `result` is the
value the Rust function returns; `aborted` records the early `return
Ok(())` of main.rs:60-63; `completed` records whether the final `Setup
complete!` line was reached; `calls` lists the URLs of the outbound
HTTP requests in order. -/
structure SetupOutcome where
  fs : FS
  writes : List FileWrite
  calls : List (List Char)
  health : Option HealthCheckResult
  aborted : Bool
  completed : Bool
  result : Except (List Char) Unit

/-- Shallow embedding of `run_setup` (main.rs:43-221) over the answers,
the initial file system and the transport oracle `probe`. -/
def run_setup (a : SetupAnswers) (fs0 : FS)
    (probe : List Char → HttpResponse) : SetupOutcome :=
  if !a.enableStorage && !a.enableState then
    { fs := fs0, writes := [], calls := [], health := none,
      aborted := true, completed := false, result := .ok () }
  else
    let storage_url := if a.enableStorage then a.storageUrl else ("localhost:50051").toList
    let storage_user := if a.enableStorage then a.storageUser else ("admin").toList
    let storage_token := if a.enableStorage then a.storageToken else []
    let storage_http_port := if a.enableStorage then a.storageHttpPort else ("3000").toList
    let state_url := if a.enableState then a.stateUrl else ("localhost:50051").toList
    let state_token := if a.enableState then a.stateToken else []
    let state_run_id := if a.enableState then a.stateRunId else ("default").toList
    let config_content := configContent a.enableStorage a.enableState
    let step2 :=
      match fs0.config with
      | some _ =>
        if a.overwrite then
          ({ fs0 with config := some config_content },
           [FileWrite.mk ("rice.config.js").toList config_content false])
        else (fs0, [])
      | none =>
        ({ fs0 with config := some config_content },
         [FileWrite.mk ("rice.config.js").toList config_content false])
    let fs1 := step2.1
    let env_content := envContent storage_url storage_user storage_token
      storage_http_port state_url state_token state_run_id
    let step3 :=
      match fs1.env with
      | some old =>
        ({ fs1 with env := some (old ++ env_content) },
         [FileWrite.mk (".env").toList env_content true])
      | none =>
        ({ fs1 with env := some env_content },
         [FileWrite.mk (".env").toList env_content false])
    let fs2 := step3.1
    let ws := step2.2 ++ step3.2
    if a.enableStorage then
      let health_url := setupHealthUrl storage_url storage_http_port
      { fs := fs2, writes := ws, calls := [health_url],
        health := some (classify (probe health_url)),
        aborted := false, completed := true, result := .ok () }
    else
      { fs := fs2, writes := ws, calls := [], health := none,
        aborted := false, completed := true, result := .ok () }

/-- The environment block a non-aborting `run_setup` session writes:
`envContent` applied to the collected values of an enabled service and
to the untouched defaults of main.rs:66-69/96-98 for a disabled one. -/
def effEnvBlock (a : SetupAnswers) : List Char :=
  envContent
    (if a.enableStorage then a.storageUrl else ("localhost:50051").toList)
    (if a.enableStorage then a.storageUser else ("admin").toList)
    (if a.enableStorage then a.storageToken else [])
    (if a.enableStorage then a.storageHttpPort else ("3000").toList)
    (if a.enableState then a.stateUrl else ("localhost:50051").toList)
    (if a.enableState then a.stateToken else [])
    (if a.enableState then a.stateRunId else ("default").toList)

/-- Modelled from the spec wording: one `KEY=value` line. -/
def kvLine (k v : List Char) : List Char := k ++ ('=' :: v) ++ ['\n']

/-- Modelled from the spec wording: a leading blank line, the comment
header, then the given key-value pairs rendered one per line. -/
def specEnvBlock (kvs : List (List Char × List Char)) : List Char :=
  '\n' :: ("# Rice Configuration").toList ++ ['\n']
    ++ (kvs.map fun p => kvLine p.1 p.2).flatten

theorem envContent_spec (v1 v2 v3 v4 v5 v6 v7 : List Char) :
    envContent v1 v2 v3 v4 v5 v6 v7 =
      specEnvBlock
        [(("STORAGE_INSTANCE_URL").toList, v1),
         (("STORAGE_USER").toList, v2),
         (("STORAGE_AUTH_TOKEN").toList, v3),
         (("STORAGE_HTTP_PORT").toList, v4),
         (("STATE_INSTANCE_URL").toList, v5),
         (("STATE_AUTH_TOKEN").toList, v6),
         (("STATE_RUN_ID").toList, v7)] := by
  simp [envContent, specEnvBlock, kvLine]

theorem run_setup_abort_eq (a : SetupAnswers) (fs : FS)
    (pr : List Char → HttpResponse)
    (h1 : a.enableStorage = false) (h2 : a.enableState = false) :
    run_setup a fs pr =
      { fs := fs, writes := [], calls := [], health := none,
        aborted := true, completed := false, result := .ok () } := by
  simp [run_setup, h1, h2]

theorem run_setup_env (a : SetupAnswers) (fs : FS)
    (pr : List Char → HttpResponse)
    (h : ¬(a.enableStorage = false ∧ a.enableState = false)) :
    (run_setup a fs pr).fs.env = some (fs.env.getD [] ++ effEnvBlock a) := by
  obtain ⟨es, est, su, sus, stk, shp, stu, stt, sri, ow⟩ := a
  obtain ⟨cfg, env⟩ := fs
  cases es <;> cases est
  · exact absurd ⟨rfl, rfl⟩ h
  all_goals cases cfg <;> cases env <;> cases ow <;>
    simp [run_setup, effEnvBlock]

/-- C2: answering no to both enablement questions yields a clean early
return with zero file writes, zero network calls, the file system
untouched, and a success result. -/
theorem setup_both_disabled (a : SetupAnswers) (fs : FS)
    (pr : List Char → HttpResponse)
    (h1 : a.enableStorage = false) (h2 : a.enableState = false) :
    (run_setup a fs pr).writes = [] ∧
    (run_setup a fs pr).calls = [] ∧
    (run_setup a fs pr).fs = fs ∧
    (run_setup a fs pr).aborted = true ∧
    (run_setup a fs pr).result = .ok () := by
  rw [run_setup_abort_eq a fs pr h1 h2]
  exact ⟨rfl, rfl, rfl, rfl, rfl⟩

/-- Concrete instance of `setup_both_disabled`. -/
theorem setup_both_disabled_witness :
    (run_setup
      (SetupAnswers.mk false false [] [] [] [] [] [] [] false)
      (FS.mk none none) (fun _ => HttpResponse.err [])).writes = [] :=
  (setup_both_disabled
    (SetupAnswers.mk false false [] [] [] [] [] [] [] false)
    (FS.mk none none) (fun _ => HttpResponse.err []) rfl rfl).1

/-- C3: every session reaching the persistence step appends to the env
file a block consisting of a leading blank line, the comment header and
exactly the 7 keys in their fixed order, a disabled service
contributing its defaults (url `localhost:50051`, user `admin`, empty
token, http port `3000`, state url `localhost:50051`, empty state
token, run id `default`). -/
theorem env_block_written (a : SetupAnswers) (fs : FS)
    (pr : List Char → HttpResponse)
    (h : ¬(a.enableStorage = false ∧ a.enableState = false)) :
    (run_setup a fs pr).fs.env =
      some (fs.env.getD [] ++ specEnvBlock
        [(("STORAGE_INSTANCE_URL").toList,
           if a.enableStorage then a.storageUrl else ("localhost:50051").toList),
         (("STORAGE_USER").toList,
           if a.enableStorage then a.storageUser else ("admin").toList),
         (("STORAGE_AUTH_TOKEN").toList,
           if a.enableStorage then a.storageToken else []),
         (("STORAGE_HTTP_PORT").toList,
           if a.enableStorage then a.storageHttpPort else ("3000").toList),
         (("STATE_INSTANCE_URL").toList,
           if a.enableState then a.stateUrl else ("localhost:50051").toList),
         (("STATE_AUTH_TOKEN").toList,
           if a.enableState then a.stateToken else []),
         (("STATE_RUN_ID").toList,
           if a.enableState then a.stateRunId else ("default").toList)]) := by
  rw [run_setup_env a fs pr h, ← envContent_spec]
  rfl

/-- Concrete instance of `env_block_written`: storage enabled, state
disabled, empty initial file system. -/
theorem env_block_written_witness :
    (run_setup
      (SetupAnswers.mk true false ("h:1").toList ("u").toList ("t").toList
        ("80").toList [] [] [] false)
      (FS.mk none none) (fun _ => HttpResponse.ok 200)).fs.env =
      some (specEnvBlock
        [(("STORAGE_INSTANCE_URL").toList, ("h:1").toList),
         (("STORAGE_USER").toList, ("u").toList),
         (("STORAGE_AUTH_TOKEN").toList, ("t").toList),
         (("STORAGE_HTTP_PORT").toList, ("80").toList),
         (("STATE_INSTANCE_URL").toList, ("localhost:50051").toList),
         (("STATE_AUTH_TOKEN").toList, []),
         (("STATE_RUN_ID").toList, ("default").toList)]) := by
  have h := env_block_written
    (SetupAnswers.mk true false ("h:1").toList ("u").toList ("t").toList
      ("80").toList [] [] [] false)
    (FS.mk none none) (fun _ => HttpResponse.ok 200) (by simp)
  simpa using h

/-- C4: when the settings file already exists and the overwrite
confirmation is answered no, its prior bytes are left unchanged, no
write targets `rice.config.js`, and the confirmation prompt defaults
to false. -/
theorem config_preserved_on_refusal (a : SetupAnswers) (fs : FS)
    (pr : List Char → HttpResponse) (c : List Char)
    (hc : fs.config = some c) (ho : a.overwrite = false) :
    (run_setup a fs pr).fs.config = some c ∧
    (∀ w ∈ (run_setup a fs pr).writes,
      w.path ≠ ("rice.config.js").toList) ∧
    overwriteDefault = false := by
  obtain ⟨es, est, su, sus, stk, shp, stu, stt, sri, ow⟩ := a
  obtain ⟨cfg, env⟩ := fs
  simp only at hc ho
  subst hc; subst ho
  refine ⟨?_, ?_, rfl⟩ <;>
    cases es <;> cases est <;> cases env <;>
      simp [run_setup]

/-- Concrete instance of `config_preserved_on_refusal`. -/
theorem config_preserved_on_refusal_witness :
    (run_setup
      (SetupAnswers.mk true true [] [] [] [] [] [] [] false)
      (FS.mk (some ("old").toList) none)
      (fun _ => HttpResponse.err [])).fs.config = some ("old").toList :=
  (config_preserved_on_refusal
    (SetupAnswers.mk true true [] [] [] [] [] [] [] false)
    (FS.mk (some ("old").toList) none)
    (fun _ => HttpResponse.err []) ("old").toList rfl rfl).1

/-- C5: against a pre-existing env file the update appends the new
block at the end, preserving every prior byte; a second run appends its
own block after the first, so blocks strictly accumulate in insertion
order. -/
theorem env_append_accumulates (a1 a2 : SetupAnswers) (fs : FS)
    (pr : List Char → HttpResponse) (e : List Char)
    (he : fs.env = some e)
    (h1 : ¬(a1.enableStorage = false ∧ a1.enableState = false))
    (h2 : ¬(a2.enableStorage = false ∧ a2.enableState = false)) :
    (run_setup a1 fs pr).fs.env = some (e ++ effEnvBlock a1) ∧
    (run_setup a2 (run_setup a1 fs pr).fs pr).fs.env =
      some (e ++ effEnvBlock a1 ++ effEnvBlock a2) := by
  have s1 : (run_setup a1 fs pr).fs.env = some (e ++ effEnvBlock a1) := by
    rw [run_setup_env a1 fs pr h1, he]
    rfl
  refine ⟨s1, ?_⟩
  rw [run_setup_env a2 (run_setup a1 fs pr).fs pr h2, s1]
  rfl

/-- Concrete instance of `env_append_accumulates`: two state-only runs
against an env file holding one byte. -/
theorem env_append_accumulates_witness :
    (run_setup
      (SetupAnswers.mk false true [] [] [] [] ("s").toList [] ("r").toList false)
      ((run_setup
        (SetupAnswers.mk false true [] [] [] [] ("s").toList [] ("r").toList false)
        (FS.mk none (some ("x").toList)) (fun _ => HttpResponse.ok 200)).fs)
      (fun _ => HttpResponse.ok 200)).fs.env =
    some (("x").toList
      ++ effEnvBlock
        (SetupAnswers.mk false true [] [] [] [] ("s").toList [] ("r").toList false)
      ++ effEnvBlock
        (SetupAnswers.mk false true [] [] [] [] ("s").toList [] ("r").toList false)) :=
  (env_append_accumulates
    (SetupAnswers.mk false true [] [] [] [] ("s").toList [] ("r").toList false)
    (SetupAnswers.mk false true [] [] [] [] ("s").toList [] ("r").toList false)
    (FS.mk none (some ("x").toList)) (fun _ => HttpResponse.ok 200)
    ("x").toList rfl (by simp) (by simp)).2

/-- C6: a response in the 2xx family is classified healthy, any other
response unhealthy with its status code, a transport failure
unreachable with its error; `run_setup` returns success for every
probe outcome and, whenever it is not the both-disabled abort, reaches
the final completion message, its recorded health being exactly the
classification of the probed response. -/
theorem health_classification (s : Nat) (e : List Char)
    (a : SetupAnswers) (fs : FS) (pr : List Char → HttpResponse) :
    (200 ≤ s → s ≤ 299 → classify (.ok s) = .healthy s) ∧
    (¬(200 ≤ s ∧ s ≤ 299) → classify (.ok s) = .unhealthy s) ∧
    classify (.err e) = .unreachable e ∧
    (run_setup a fs pr).result = .ok () ∧
    (¬(a.enableStorage = false ∧ a.enableState = false) →
      (run_setup a fs pr).completed = true) ∧
    (a.enableStorage = true →
      (run_setup a fs pr).health =
        some (classify (pr (setupHealthUrl a.storageUrl a.storageHttpPort)))) := by
  obtain ⟨es, est, su, sus, stk, shp, stu, stt, sri, ow⟩ := a
  obtain ⟨cfg, env⟩ := fs
  refine ⟨?_, ?_, rfl, ?_, ?_, ?_⟩
  · intro h1 h2
    have hs : isSuccessStatus s = true := by
      simp only [isSuccessStatus, Bool.and_eq_true, decide_eq_true_eq]
      omega
    simp [classify, hs]
  · intro h
    have hs : isSuccessStatus s = false := by
      simp only [isSuccessStatus, Bool.and_eq_false_iff, decide_eq_false_iff_not]
      omega
    simp [classify, hs]
  · cases es <;> cases est <;> cases cfg <;> cases ow <;> cases env <;>
      simp [run_setup]
  · intro h
    cases es <;> cases est
    · exact absurd ⟨rfl, rfl⟩ h
    all_goals cases cfg <;> cases ow <;> cases env <;> simp [run_setup]
  · intro h
    simp only at h
    subst h
    cases est <;> cases cfg <;> cases ow <;> cases env <;> simp [run_setup]

/-- Concrete instances of `health_classification`: status 204 healthy,
status 500 unhealthy, completion and recorded health for one concrete
session. -/
theorem health_classification_witness :
    classify (.ok 204) = .healthy 204 ∧
    classify (.ok 500) = .unhealthy 500 ∧
    classify (.err ("refused").toList) = .unreachable ("refused").toList ∧
    (run_setup
      (SetupAnswers.mk true false ("h").toList [] [] ("80").toList [] [] [] false)
      (FS.mk none none) (fun _ => HttpResponse.err [])).completed = true ∧
    (run_setup
      (SetupAnswers.mk true false ("h").toList [] [] ("80").toList [] [] [] false)
      (FS.mk none none) (fun _ => HttpResponse.err [])).health =
      some (classify (HttpResponse.err [])) :=
  ⟨(health_classification 204 [] (SetupAnswers.mk false false [] [] [] [] [] [] [] false)
      (FS.mk none none) (fun _ => HttpResponse.err [])).1 (by decide) (by decide),
   (health_classification 500 [] (SetupAnswers.mk false false [] [] [] [] [] [] [] false)
      (FS.mk none none) (fun _ => HttpResponse.err [])).2.1 (by decide),
   (health_classification 0 ("refused").toList
      (SetupAnswers.mk false false [] [] [] [] [] [] [] false)
      (FS.mk none none) (fun _ => HttpResponse.err [])).2.2.1,
   (health_classification 0 []
      (SetupAnswers.mk true false ("h").toList [] [] ("80").toList [] [] [] false)
      (FS.mk none none) (fun _ => HttpResponse.err [])).2.2.2.2.1 (by simp),
   (health_classification 0 []
      (SetupAnswers.mk true false ("h").toList [] [] ("80").toList [] [] [] false)
      (FS.mk none none) (fun _ => HttpResponse.err [])).2.2.2.2.2 rfl⟩

/-- C8: the probe URL list of a setup session is the single storage
health URL when storage is enabled and empty otherwise, so a network
call happens if and only if storage is enabled, and no other URL (in
particular none derived from the state service) is ever requested. -/
theorem storage_probe_iff (a : SetupAnswers) (fs : FS)
    (pr : List Char → HttpResponse) :
    (run_setup a fs pr).calls =
      (if a.enableStorage = true
        then [setupHealthUrl a.storageUrl a.storageHttpPort] else []) ∧
    ((run_setup a fs pr).calls ≠ [] ↔ a.enableStorage = true) := by
  obtain ⟨es, est, su, sus, stk, shp, stu, stt, sri, ow⟩ := a
  obtain ⟨cfg, env⟩ := fs
  cases es <;> cases est <;> cases cfg <;> cases ow <;> cases env <;>
    simp [run_setup]

/-- Does the second list start with the first? (Used below to model
Rust substring containment.) -/
def leadMatch : List Char → List Char → Bool
  | [], _ => true
  | _ :: _, [] => false
  | c :: cs, d :: ds => c == d && leadMatch cs ds

/-- Rust `str::contains` with a string pattern: the needle occurs as a
contiguous substring of the haystack. -/
def hasSubstr (needle : List Char) : List Char → Bool
  | [] => leadMatch needle []
  | d :: ds => leadMatch needle (d :: ds) || hasSubstr needle ds

/-- The fixed key array of `run_config`, main.rs:227-235. -/
def envVarNames : List (List Char) :=
  [("STORAGE_INSTANCE_URL").toList,
   ("STORAGE_USER").toList,
   ("STORAGE_AUTH_TOKEN").toList,
   ("STORAGE_HTTP_PORT").toList,
   ("STATE_INSTANCE_URL").toList,
   ("STATE_AUTH_TOKEN").toList,
   ("STATE_RUN_ID").toList]

/-- The line `run_config` prints for one variable (main.rs:237-247):
given the variable name and its lookup result, mask the value with
`********` when the name contains `TOKEN`, print the value otherwise,
and print `Not set` when the variable is absent. -/
def configLine (name : List Char) (v : Option (List Char)) : List Char :=
  match v with
  | some val =>
    let display :=
      if hasSubstr ("TOKEN").toList name then ("********").toList else val
    name ++ (": ").toList ++ display
  | none => name ++ (": ").toList ++ ("Not set").toList

/-- C7: in the config report a key of the fixed 7 whose name contains
`TOKEN` is always printed masked, so its printed line is independent
of the stored value (the empty string included); a present key without
`TOKEN` in its name is printed with its value, and an absent key with
the `Not set` marker. -/
theorem token_masking (name v v1 v2 : List Char) :
    (name ∈ envVarNames → hasSubstr ("TOKEN").toList name = true →
      configLine name (some v) = name ++ (": ********").toList) ∧
    (hasSubstr ("TOKEN").toList name = true →
      configLine name (some v1) = configLine name (some v2)) ∧
    (hasSubstr ("TOKEN").toList name = false →
      configLine name (some v) = name ++ (": ").toList ++ v) ∧
    configLine name none = name ++ (": ").toList ++ ("Not set").toList := by
  refine ⟨?_, ?_, ?_, rfl⟩
  · intro _ ht
    simp only [configLine, ht, if_true, List.append_assoc]
    rfl
  · intro ht
    simp only [configLine]
    rw [ht]
    simp
  · intro ht
    simp only [configLine]
    rw [ht]
    simp

/-- Concrete instance of `token_masking`: `STORAGE_AUTH_TOKEN` prints
masked for value `secret`, identically for the empty and a nonempty
value. -/
theorem token_masking_witness :
    configLine ("STORAGE_AUTH_TOKEN").toList (some (("secret").toList)) =
      ("STORAGE_AUTH_TOKEN").toList ++ (": ********").toList ∧
    configLine ("STORAGE_AUTH_TOKEN").toList (some []) =
      configLine ("STORAGE_AUTH_TOKEN").toList (some (("secret").toList)) :=
  ⟨(token_masking ("STORAGE_AUTH_TOKEN").toList ("secret").toList [] []).1
      (by decide) (by decide),
   (token_masking ("STORAGE_AUTH_TOKEN").toList []
      [] ("secret").toList).2.1 (by decide)⟩

/-- C10: collected values are spliced into the env block byte-for-byte
with no quoting or escaping (shown for the token slot by the exact
decomposition around it); the block splits on newlines into exactly
`10 + k` segments where `k` is the total number of newline characters
inside the 7 values, so newline-free values give the 10 segments of the
one-`KEY=value`-per-line format and any value containing a newline
breaks it. -/
theorem env_values_verbatim (v1 v2 v3 v4 v5 v6 v7 : List Char) :
    envContent v1 v2 v3 v4 v5 v6 v7 =
      ("\n# Rice Configuration\nSTORAGE_INSTANCE_URL=").toList ++ v1
        ++ ("\nSTORAGE_USER=").toList ++ v2
        ++ ("\nSTORAGE_AUTH_TOKEN=").toList ++ v3
        ++ ("\nSTORAGE_HTTP_PORT=").toList ++ v4
        ++ ("\nSTATE_INSTANCE_URL=").toList ++ v5
        ++ ("\nSTATE_AUTH_TOKEN=").toList ++ v6
        ++ ("\nSTATE_RUN_ID=").toList ++ v7
        ++ ("\n").toList ∧
    (splitCh '\n' (envContent v1 v2 v3 v4 v5 v6 v7)).length =
      10 + (v1.count '\n' + v2.count '\n' + v3.count '\n' + v4.count '\n'
        + v5.count '\n' + v6.count '\n' + v7.count '\n') ∧
    (v3.count '\n' ≠ 0 →
      (splitCh '\n' (envContent v1 v2 v3 v4 v5 v6 v7)).length ≠ 10) := by
  have hc : (splitCh '\n' (envContent v1 v2 v3 v4 v5 v6 v7)).length =
      10 + (v1.count '\n' + v2.count '\n' + v3.count '\n' + v4.count '\n'
        + v5.count '\n' + v6.count '\n' + v7.count '\n') := by
    rw [splitCh_length]
    simp only [envContent, List.count_append]
    have h1 : (("\n# Rice Configuration\nSTORAGE_INSTANCE_URL=").toList).count '\n' = 2 := by
      decide
    have h2 : (("\nSTORAGE_USER=").toList).count '\n' = 1 := by decide
    have h3 : (("\nSTORAGE_AUTH_TOKEN=").toList).count '\n' = 1 := by decide
    have h4 : (("\nSTORAGE_HTTP_PORT=").toList).count '\n' = 1 := by decide
    have h5 : (("\nSTATE_INSTANCE_URL=").toList).count '\n' = 1 := by decide
    have h6 : (("\nSTATE_AUTH_TOKEN=").toList).count '\n' = 1 := by decide
    have h7 : (("\nSTATE_RUN_ID=").toList).count '\n' = 1 := by decide
    have h8 : (("\n").toList).count '\n' = 1 := by decide
    rw [h1, h2, h3, h4, h5, h6, h7, h8]
    omega
  refine ⟨rfl, hc, ?_⟩
  intro hv
  rw [hc]
  omega

/-- Concrete instance of `env_values_verbatim`: a token value holding
a newline yields a block that no longer splits into 10 lines. -/
theorem env_values_verbatim_witness :
    (splitCh '\n'
      (envContent [] [] ('a' :: '\n' :: 'b' :: []) [] [] [] [])).length ≠ 10 :=
  (env_values_verbatim [] [] ('a' :: '\n' :: 'b' :: []) [] [] [] []).2.2
    (by decide)

end RiceCli
